import Mathlib

/-
Shallow embedding of `src/proxy_server.py`: a single-hop HTTP reverse proxy
for a fixed upstream origin.

Header maps are modelled as ordered association lists `List (String × String)`,
matching aiohttp's `CIMultiDict`: keys keep their original case, lookups
compare names case-insensitively, duplicate keys may occur, and iteration
order is insertion order.  Bodies are byte lists (`List Nat`).

Effectful collaborators of `proxy_request` are passed as explicit oracles:
`upstream` stands for `self.session.request(...)` together with
`response.read()` (returning either the read response or the raised
exception), and `gz` stands for `gzip.decompress` (line 160), with `.error`
meaning the call raises.
-/

/-- Python `str.lower()` restricted to ASCII letters, applied characterwise;
header names in play are ASCII.  Defined by structural recursion over the
character list so that the kernel can evaluate it. -/
def pyLower (s : String) : String :=
  String.mk (s.data.map (fun c => if 'A' ≤ c && c ≤ 'Z' then Char.ofNat (c.toNat + 32) else c))

/-- Python whitespace as `str.strip()` removes it (ASCII part). -/
def pyIsSpace (c : Char) : Bool :=
  c == ' ' || c == '\t' || c == '\n' || c == '\r' || c == '\x0b' || c == '\x0c'

/-- Python `str.strip()`: drop leading and trailing whitespace. -/
def pyStrip (s : String) : String :=
  String.mk (((s.data.dropWhile pyIsSpace).reverse.dropWhile pyIsSpace).reverse)

/-- Python `s.split(',')[0]`: the characters before the first comma (the
whole string when it has no comma; `""` when `s` is empty, since
`"".split(',') == [""]`). -/
def firstCommaToken (s : String) : String :=
  String.mk (s.data.takeWhile (fun c => c != ','))

/-- Value of `m.get(name)` (and of `m[name]`) on a `CIMultiDict` `m`: the
value of the first entry whose name equals `name` case-insensitively, if
any entry does. -/
def getHeaderCI (hs : List (String × String)) (name : String) : Option String :=
  (hs.find? (fun kv => pyLower kv.1 == pyLower name)).map (fun kv => kv.2)

/-- Python truthiness of an optional string (`if x:` where `x` is `None` or a
`str`): `None` and `""` are falsy, every other string is truthy. -/
def pyTruthyStr : Option String → Bool
  | none => false
  | some s => s != ""

/-- Python `d[k] = v` on an insertion-ordered `dict` `d`: overwrite in place
when the key `k` is already present (plain string equality), otherwise append
at the end. -/
def pySetItem (d : List (String × String)) (k v : String) : List (String × String) :=
  if d.any (fun kv => kv.1 == k) then
    d.map (fun kv => if kv.1 == k then (k, v) else kv)
  else d ++ [(k, v)]

/-- Python `dict(m)` for a `CIMultiDict` `m` (`proxy_server.py` lines 96 and
133).  CPython builds the dict by `for k in m.keys(): d[k] = m[k]`, where
`m.keys()` yields every key occurrence in insertion order with its original
case, `m[k]` returns the value of the first case-insensitive match in `m`,
and the plain dict `d` distinguishes keys case-sensitively (multidict's
`istr` keys hash and compare as ordinary strings).  In particular duplicate
keys collapse to a single entry holding the first value. -/
def pyDict (hs : List (String × String)) : List (String × String) :=
  hs.foldl (fun d kv => pySetItem d kv.1 ((getHeaderCI hs kv.1).getD kv.2)) []

/-- Hop-by-hop header names excluded from forwarding (lines 99–109). -/
def hop_by_hop_headers : List String :=
  ["connection", "keep-alive", "proxy-authenticate", "proxy-authorization",
   "te", "trailers", "transfer-encoding", "upgrade", "host"]

/-- Dict comprehension dropping hop-by-hop names: `{k: v for k, v in
d.items() if k.lower() not in hop_by_hop_headers}` (lines 110–112 and
136–140). -/
def stripHopByHop (d : List (String × String)) : List (String × String) :=
  d.filter (fun kv => !(hop_by_hop_headers.contains (pyLower kv.1)))

/-- Header sanitization exactly as the code performs it on a header multimap:
the `dict(...)` conversion followed by the hop-by-hop filter. -/
def sanitize (hs : List (String × String)) : List (String × String) :=
  stripHopByHop (pyDict hs)

/-- CORS header injection on the success path (lines 143–147): three dict
assignments in order. -/
def injectCORS (d : List (String × String)) : List (String × String) :=
  pySetItem
    (pySetItem
      (pySetItem d "Access-Control-Allow-Origin" "*")
      "Access-Control-Allow-Methods" "GET, POST, PUT, DELETE, OPTIONS")
    "Access-Control-Allow-Headers" "*"

/-- An inbound request as `proxy_request` consumes it: method, raw
path+query (`request.path_qs`), header multimap, eagerly read body
(`await request.read()` guarded by `request.can_read_body`, modelled as an
optional byte list), and the transport-level remote address
(`request.remote`). -/
structure Request where
  method : String
  path_qs : String
  headers : List (String × String)
  body : Option (List Nat)
  remote : String
deriving DecidableEq

/-- The request actually dispatched upstream (arguments of
`self.session.request` on lines 124–129). -/
structure TargetRequest where
  method : String
  url : String
  headers : List (String × String)
  body : Option (List Nat)
deriving DecidableEq

/-- Body of an `aiohttp.web.Response`: absent, `text=...`, or `body=...`
bytes. -/
inductive RespBody where
  | empty : RespBody
  | text (s : String) : RespBody
  | bytes (b : List Nat) : RespBody
deriving DecidableEq

/-- An outbound `aiohttp.web.Response` as constructed by the code: status,
the explicit header map passed to the constructor, and the body. -/
structure Response where
  status : Nat
  headers : List (String × String)
  body : RespBody
deriving DecidableEq

/-- Exceptions the upstream dispatch (`session.request` + `response.read()`)
can raise, per aiohttp's documented exception hierarchy:
`ServerTimeoutError` (connect timeout), `ClientConnectorError` (connection
refused / DNS failure), `ClientConnectorSSLError` (TLS failure) and
`ClientPayloadError` (body read failure) are subclasses of
`aiohttp.ClientError`; expiry of the session's *total* `ClientTimeout`
raises `asyncio.TimeoutError`, which is not an `aiohttp.ClientError`; any
other exception is `otherError`.  Each carries its `str(e)` message. -/
inductive PyExn where
  | serverTimeoutError (msg : String)
  | clientConnectorError (msg : String)
  | clientConnectorSSLError (msg : String)
  | clientPayloadError (msg : String)
  | asyncioTimeoutError (msg : String)
  | otherError (msg : String)
deriving DecidableEq

/-- Whether `except aiohttp.ClientError` (line 170) catches the exception;
the remaining exceptions fall to `except Exception` (line 177). -/
def PyExn.isClientError : PyExn → Bool
  | .serverTimeoutError _ => true
  | .clientConnectorError _ => true
  | .clientConnectorSSLError _ => true
  | .clientPayloadError _ => true
  | .asyncioTimeoutError _ => false
  | .otherError _ => false

/-- The `str(e)` rendering interpolated into the error bodies. -/
def PyExn.str : PyExn → String
  | .serverTimeoutError m => m
  | .clientConnectorError m => m
  | .clientConnectorSSLError m => m
  | .clientPayloadError m => m
  | .asyncioTimeoutError m => m
  | .otherError m => m

/-- Result of one upstream dispatch: either the upstream response (status,
headers, fully read body) or a raised exception. -/
inductive UpstreamResult where
  | ok (status : Nat) (headers : List (String × String)) (body : List Nat)
  | raise (e : PyExn)

/-- Transcription of `_get_client_ip` (lines 59–73).  `headers.get(...)`
returns the first case-insensitive match; `if forwarded_for:` and
`if real_ip:` are Python truthiness, so a header that is present with an
empty value falls through to the next source.  `.strip()` is modelled by
`String.trim` (ASCII whitespace). -/
def get_client_ip (headers : List (String × String)) (remote : String) : String :=
  let forwarded_for := getHeaderCI headers "X-Forwarded-For"
  if pyTruthyStr forwarded_for then
    pyStrip (firstCommaToken (forwarded_for.getD ""))
  else
    let real_ip := getHeaderCI headers "X-Real-IP"
    if pyTruthyStr real_ip then pyStrip (real_ip.getD "")
    else remote

/-- The access check of lines 80–82 (and identically lines 188–190): when
`self.allowed_client_ip` is truthy, allow exactly when the resolved client IP
equals it by plain string comparison; otherwise allow unconditionally. -/
def check_access (allowed_client_ip : Option String) (client_ip : String) : Bool :=
  if pyTruthyStr allowed_client_ip then client_ip == allowed_client_ip.getD ""
  else true

/-- The 403 denial response of lines 84–88 (and 192–196). -/
def denialResponse : Response :=
  { status := 403
    headers := [("Access-Control-Allow-Origin", "*")]
    body := RespBody.text "Access denied: Client IP not allowed" }

/-- Fixed upstream origin (line 30). -/
def OPENAI_API_BASE : String := "https://api.openai.com"

/-- The target of lines 91–117: URL = base ++ `request.path_qs`, sanitized
inbound headers, method and body copied unchanged. -/
def targetOf (req : Request) : TargetRequest :=
  { method := req.method
    url := OPENAI_API_BASE ++ req.path_qs
    headers := sanitize req.headers
    body := req.body }

/-- Transcription of `proxy_request` (lines 75–183).  The second component
of the result records the request dispatched upstream; it is `none` exactly
when the upstream was never contacted.  On the success branch the code
additionally runs `gzip.decompress(response_body)` whenever the upstream's
`Content-Encoding` equals `"gzip"` (lines 159–160); if that raises, the
surrounding `except Exception` produces the 500 response.  The relayed body
is always the raw `response_body`, never the decompressed bytes. -/
def proxy_request (allowed_client_ip : Option String)
    (gz : List Nat → Except String (List Nat))
    (upstream : TargetRequest → UpstreamResult)
    (req : Request) : Response × Option TargetRequest :=
  if check_access allowed_client_ip (get_client_ip req.headers req.remote) then
    let target : TargetRequest := targetOf req
    match upstream target with
    | UpstreamResult.ok status resp_hs resp_body =>
      let resp_headers := injectCORS (sanitize resp_hs)
      if getHeaderCI resp_hs "Content-Encoding" == some "gzip" then
        match gz resp_body with
        | Except.error msg =>
          ({ status := 500
             headers := [("Access-Control-Allow-Origin", "*")]
             body := RespBody.text ("Internal proxy error: " ++ msg) }, some target)
        | Except.ok _ =>
          ({ status := status, headers := resp_headers, body := RespBody.bytes resp_body },
            some target)
      else
        ({ status := status, headers := resp_headers, body := RespBody.bytes resp_body },
          some target)
    | UpstreamResult.raise e =>
      if e.isClientError then
        ({ status := 502
           headers := [("Access-Control-Allow-Origin", "*")]
           body := RespBody.text ("Proxy error: " ++ e.str) }, some target)
      else
        ({ status := 500
           headers := [("Access-Control-Allow-Origin", "*")]
           body := RespBody.text ("Internal proxy error: " ++ e.str) }, some target)
  else (denialResponse, none)

/-- Headers of the successful CORS preflight response (lines 198–205). -/
def preflightHeaders : List (String × String) :=
  [("Access-Control-Allow-Origin", "*"),
   ("Access-Control-Allow-Methods", "GET, POST, PUT, DELETE, OPTIONS"),
   ("Access-Control-Allow-Headers", "*"),
   ("Access-Control-Max-Age", "86400")]

/-- Transcription of `handle_options` (lines 185–205): the same access check
as `proxy_request`, then a local 200 response with no body; never contacts
the upstream. -/
def handle_options (allowed_client_ip : Option String) (req : Request) : Response :=
  if check_access allowed_client_ip (get_client_ip req.headers req.remote) then
    { status := 200, headers := preflightHeaders, body := RespBody.empty }
  else denialResponse

/-- Routing of `create_app` (lines 216–217): the `OPTIONS` route is
registered first: an `OPTIONS` request on any path is handled locally by
`handle_options`, every other request by `proxy_request`. -/
def app_handle (allowed_client_ip : Option String)
    (gz : List Nat → Except String (List Nat))
    (upstream : TargetRequest → UpstreamResult)
    (req : Request) : Response × Option TargetRequest :=
  if req.method == "OPTIONS" then (handle_options allowed_client_ip req, none)
  else proxy_request allowed_client_ip gz upstream req

/-- Number of entries of a header map whose name equals `name`
case-insensitively. -/
def countCI (hs : List (String × String)) (name : String) : Nat :=
  (hs.filter (fun kv => pyLower kv.1 == pyLower name)).length

/-- Lower-cased names of the three fixed CORS headers. -/
def corsNamesLower : List String :=
  ["access-control-allow-origin", "access-control-allow-methods",
   "access-control-allow-headers"]

/-- Resolution rule exactly as the specification phrases it
(presence-based rather than truthiness-based); declared only to be compared
with `get_client_ip`. -/
def resolve_client_ip_claim (headers : List (String × String)) (remote : String) : String :=
  match getHeaderCI headers "X-Forwarded-For" with
  | some v => pyStrip (firstCommaToken v)
  | none =>
    match getHeaderCI headers "X-Real-IP" with
    | some v => pyStrip v
    | none => remote

/-- Concrete sample requests used by witness theorems. -/
def sampleGet : Request :=
  { method := "GET", path_qs := "/v1/models", headers := [], body := none, remote := "8.8.8.8" }

def samplePost : Request :=
  { method := "POST", path_qs := "/v1/chat/completions", headers := [], body := some [123],
    remote := "5.6.7.8" }

def sampleOptions : Request :=
  { method := "OPTIONS", path_qs := "/v1/anything", headers := [], body := none,
    remote := "8.8.8.8" }

/-- Identity-style gzip oracle: decompression succeeds returning the input. -/
def gzOk : List Nat → Except String (List Nat) := fun bs => Except.ok bs

/-- Trivial upstream oracle answering 200 with no headers and no body. -/
def upNull : TargetRequest → UpstreamResult := fun _ => UpstreamResult.ok 200 [] []

theorem pySetItem_of_no_key (d : List (String × String)) (k v : String)
    (h : ∀ kv ∈ d, kv.1 ≠ k) : pySetItem d k v = d ++ [(k, v)] := by
  have hany : d.any (fun kv => kv.1 == k) = false := by
    rw [List.any_eq_false]
    intro kv hkv
    simpa using h kv hkv
  simp [pySetItem, hany]

theorem pySetItem_mem_self (d : List (String × String)) (k v : String) :
    (k, v) ∈ pySetItem d k v := by
  unfold pySetItem
  by_cases hany : d.any (fun kv => kv.1 == k) = true
  · rw [if_pos hany]
    obtain ⟨kv, hmem, hk⟩ := List.any_eq_true.mp hany
    exact List.mem_map.mpr ⟨kv, hmem, by simp [hk]⟩
  · rw [if_neg hany]
    simp

theorem pySetItem_mem_of_ne (d : List (String × String)) (k v : String)
    (kv : String × String) (hmem : kv ∈ d) (hne : kv.1 ≠ k) :
    kv ∈ pySetItem d k v := by
  unfold pySetItem
  by_cases hany : d.any (fun x => x.1 == k) = true
  · rw [if_pos hany]
    refine List.mem_map.mpr ⟨kv, hmem, ?_⟩
    simp [hne]
  · rw [if_neg hany]
    exact List.mem_append_left _ hmem

theorem pySetItem_name_mem (d : List (String × String)) (k v : String)
    (kv : String × String) (h : kv ∈ pySetItem d k v) :
    kv ∈ d ∨ kv.1 = k := by
  unfold pySetItem at h
  by_cases hany : d.any (fun x => x.1 == k) = true
  · rw [if_pos hany] at h
    obtain ⟨x, hx, hmap⟩ := List.mem_map.mp h
    by_cases hk : (x.1 == k) = true
    · right
      rw [if_pos hk] at hmap
      rw [← hmap]
    · left
      rw [if_neg hk] at hmap
      exact hmap ▸ hx
  · rw [if_neg hany] at h
    rcases List.mem_append.mp h with hmem | hone
    · exact Or.inl hmem
    · right
      have : kv = (k, v) := by simpa using hone
      rw [this]

theorem pyDict_go_names (hs0 : List (String × String)) (l : List (String × String)) :
    ∀ acc : List (String × String),
      (∀ kv ∈ acc, ∃ kv' ∈ hs0, kv.1 = kv'.1) →
      (∀ kv ∈ l, ∃ kv' ∈ hs0, kv.1 = kv'.1) →
      ∀ kv ∈ l.foldl (fun d kv => pySetItem d kv.1 ((getHeaderCI hs0 kv.1).getD kv.2)) acc,
        ∃ kv' ∈ hs0, kv.1 = kv'.1 := by
  induction l with
  | nil =>
    intro acc hacc _ kv hkv
    exact hacc kv hkv
  | cons a t ih =>
    intro acc hacc hl kv hkv
    rw [List.foldl_cons] at hkv
    refine ih _ ?_ (fun x hx => hl x (List.mem_cons_of_mem a hx)) kv hkv
    intro x hx
    rcases pySetItem_name_mem _ _ _ _ hx with hmem | hname
    · exact hacc x hmem
    · obtain ⟨kv', hkv', heq⟩ := hl a (List.mem_cons_self a t)
      exact ⟨kv', hkv', hname.trans heq⟩

theorem pyDict_names (hs : List (String × String)) (kv : String × String)
    (h : kv ∈ pyDict hs) : ∃ kv' ∈ hs, kv.1 = kv'.1 :=
  pyDict_go_names hs hs []
    (fun kv' hkv' => absurd hkv' (List.not_mem_nil kv'))
    (fun kv' hkv' => ⟨kv', hkv', rfl⟩) kv h

theorem sanitize_names (hs : List (String × String)) (kv : String × String)
    (h : kv ∈ sanitize hs) : ∃ kv' ∈ hs, kv.1 = kv'.1 := by
  unfold sanitize stripHopByHop at h
  exact pyDict_names hs kv (List.mem_of_mem_filter h)

theorem sanitize_no_hop (hs : List (String × String)) (kv : String × String)
    (h : kv ∈ sanitize hs) : hop_by_hop_headers.contains (pyLower kv.1) = false := by
  unfold sanitize stripHopByHop at h
  have := List.of_mem_filter h
  simpa using this

theorem getHeaderCI_of_mem (hs : List (String × String))
    (hnd : (hs.map (fun kv => pyLower kv.1)).Nodup)
    (kv : String × String) (h : kv ∈ hs) :
    getHeaderCI hs kv.1 = some kv.2 := by
  induction hs with
  | nil => cases h
  | cons a t ih =>
    rw [List.map_cons, List.nodup_cons] at hnd
    rcases List.mem_cons.mp h with rfl | hmem
    · unfold getHeaderCI
      rw [List.find?_cons_of_pos]
      · rfl
      · exact beq_self_eq_true _
    · have hne : (pyLower a.1 == pyLower kv.1) = false := by
        have : pyLower a.1 ≠ pyLower kv.1 := by
          intro hcontra
          exact hnd.1 (hcontra ▸ List.mem_map_of_mem _ hmem)
        simpa using this
      unfold getHeaderCI
      rw [List.find?_cons_of_neg]
      · exact ih hnd.2 hmem
      · simp [hne]

theorem pyDict_go_append (hs0 : List (String × String)) (l : List (String × String)) :
    ∀ acc : List (String × String),
      (∀ kv ∈ l, (getHeaderCI hs0 kv.1).getD kv.2 = kv.2) →
      (∀ kv ∈ l, ∀ kv' ∈ acc, kv'.1 ≠ kv.1) →
      (l.map (fun kv => kv.1)).Nodup →
      l.foldl (fun d kv => pySetItem d kv.1 ((getHeaderCI hs0 kv.1).getD kv.2)) acc = acc ++ l := by
  induction l with
  | nil =>
    intro acc _ _ _
    simp
  | cons a t ih =>
    intro acc hval hdisj hnd
    rw [List.map_cons, List.nodup_cons] at hnd
    rw [List.foldl_cons, hval a (List.mem_cons_self a t),
      pySetItem_of_no_key _ _ _ (fun kv' hkv' => hdisj a (List.mem_cons_self a t) kv' hkv')]
    have hstep : acc ++ [(a.1, a.2)] = acc ++ [a] := by simp
    rw [hstep, ih (acc ++ [a])
      (fun kv hkv => hval kv (List.mem_cons_of_mem a hkv))
      ?_ hnd.2]
    · simp
    · intro kv hkv kv' hkv'
      rcases List.mem_append.mp hkv' with hacc | hone
      · exact hdisj kv (List.mem_cons_of_mem a hkv) kv' hacc
      · have hkv'a : kv' = a := by simpa using hone
        subst hkv'a
        intro heq
        exact hnd.1 (heq ▸ List.mem_map_of_mem _ hkv)

theorem pyDict_eq_self (hs : List (String × String))
    (hnd : (hs.map (fun kv => pyLower kv.1)).Nodup) :
    pyDict hs = hs := by
  unfold pyDict
  have hnd' : (hs.map (fun kv => kv.1)).Nodup := by
    have hmm : ((hs.map (fun kv => kv.1)).map pyLower).Nodup := by
      simpa [List.map_map, Function.comp] using hnd
    exact hmm.of_map _
  have := pyDict_go_append hs hs []
    (fun kv hkv => by rw [getHeaderCI_of_mem hs hnd kv hkv]; rfl)
    (fun kv _ kv' hkv' => absurd hkv' (List.not_mem_nil kv'))
    hnd'
  simpa using this

theorem sanitize_of_nodupCI (hs : List (String × String))
    (hnd : (hs.map (fun kv => pyLower kv.1)).Nodup) :
    sanitize hs = hs.filter (fun kv => !(hop_by_hop_headers.contains (pyLower kv.1))) := by
  unfold sanitize stripHopByHop
  rw [pyDict_eq_self hs hnd]

theorem countCI_append (A B : List (String × String)) (n : String) :
    countCI (A ++ B) n = countCI A n + countCI B n := by
  unfold countCI
  rw [List.filter_append, List.length_append]

theorem countCI_eq_zero (A : List (String × String)) (n : String)
    (h : ∀ kv ∈ A, pyLower kv.1 ≠ pyLower n) : countCI A n = 0 := by
  unfold countCI
  rw [List.length_eq_zero, List.filter_eq_nil_iff]
  intro kv hkv
  simpa using h kv hkv

theorem injectCORS_mem (d : List (String × String)) :
    ("Access-Control-Allow-Origin", "*") ∈ injectCORS d
  ∧ ("Access-Control-Allow-Methods", "GET, POST, PUT, DELETE, OPTIONS") ∈ injectCORS d
  ∧ ("Access-Control-Allow-Headers", "*") ∈ injectCORS d := by
  unfold injectCORS
  refine ⟨?_, ?_, ?_⟩
  · exact pySetItem_mem_of_ne _ _ _ _
      (pySetItem_mem_of_ne _ _ _ _ (pySetItem_mem_self _ _ _) (by decide)) (by decide)
  · exact pySetItem_mem_of_ne _ _ _ _ (pySetItem_mem_self _ _ _) (by decide)
  · exact pySetItem_mem_self _ _ _

theorem injectCORS_of_no_cors (d : List (String × String))
    (h : ∀ kv ∈ d, corsNamesLower.contains (pyLower kv.1) = false) :
    injectCORS d =
      d ++ [("Access-Control-Allow-Origin", "*"),
            ("Access-Control-Allow-Methods", "GET, POST, PUT, DELETE, OPTIONS"),
            ("Access-Control-Allow-Headers", "*")] := by
  have hname : ∀ kv ∈ d, ∀ n ∈ corsNamesLower, pyLower kv.1 ≠ n := by
    intro kv hkv n hn heq
    have hc := h kv hkv
    rw [heq] at hc
    have ht : corsNamesLower.contains n = true := List.elem_eq_true_of_mem hn
    rw [hc] at ht
    exact Bool.false_ne_true ht
  have h1 : pySetItem d "Access-Control-Allow-Origin" "*" =
      d ++ [("Access-Control-Allow-Origin", "*")] := by
    refine pySetItem_of_no_key _ _ _ ?_
    intro kv hkv heq
    exact hname kv hkv "access-control-allow-origin" (by decide) (by rw [heq]; decide)
  have h2 : pySetItem (d ++ [("Access-Control-Allow-Origin", "*")])
      "Access-Control-Allow-Methods" "GET, POST, PUT, DELETE, OPTIONS" =
      d ++ [("Access-Control-Allow-Origin", "*")] ++
        [("Access-Control-Allow-Methods", "GET, POST, PUT, DELETE, OPTIONS")] := by
    refine pySetItem_of_no_key _ _ _ ?_
    intro kv hkv
    rcases List.mem_append.mp hkv with hmem | hone
    · intro heq
      exact hname kv hmem "access-control-allow-methods" (by decide) (by rw [heq]; decide)
    · have : kv = ("Access-Control-Allow-Origin", "*") := by simpa using hone
      rw [this]
      decide
  have h3 : pySetItem (d ++ [("Access-Control-Allow-Origin", "*")] ++
        [("Access-Control-Allow-Methods", "GET, POST, PUT, DELETE, OPTIONS")])
      "Access-Control-Allow-Headers" "*" =
      d ++ [("Access-Control-Allow-Origin", "*")] ++
        [("Access-Control-Allow-Methods", "GET, POST, PUT, DELETE, OPTIONS")] ++
        [("Access-Control-Allow-Headers", "*")] := by
    refine pySetItem_of_no_key _ _ _ ?_
    intro kv hkv
    rcases List.mem_append.mp hkv with hmem | hone
    · rcases List.mem_append.mp hmem with hmem' | hone'
      · intro heq
        exact hname kv hmem' "access-control-allow-headers" (by decide) (by rw [heq]; decide)
      · have : kv = ("Access-Control-Allow-Origin", "*") := by simpa using hone'
        rw [this]
        decide
    · have : kv = ("Access-Control-Allow-Methods", "GET, POST, PUT, DELETE, OPTIONS") := by
        simpa using hone
      rw [this]
      decide
  unfold injectCORS
  rw [h1, h2, h3]
  simp

theorem injectCORS_counts (d : List (String × String))
    (h : ∀ kv ∈ d, corsNamesLower.contains (pyLower kv.1) = false) :
    countCI (injectCORS d) "Access-Control-Allow-Origin" = 1
  ∧ countCI (injectCORS d) "Access-Control-Allow-Methods" = 1
  ∧ countCI (injectCORS d) "Access-Control-Allow-Headers" = 1 := by
  have hz : ∀ n : String, corsNamesLower.contains (pyLower n) = true → countCI d n = 0 := by
    intro n hn
    refine countCI_eq_zero _ _ ?_
    intro kv hkv heq
    have hc := h kv hkv
    rw [heq, hn] at hc
    exact absurd hc (by simp)
  rw [injectCORS_of_no_cors d h]
  refine ⟨?_, ?_, ?_⟩ <;> (rw [countCI_append, hz _ (by decide)]; decide)

theorem proxy_request_denied (policy : Option String)
    (gz : List Nat → Except String (List Nat)) (upstream : TargetRequest → UpstreamResult)
    (req : Request)
    (h : check_access policy (get_client_ip req.headers req.remote) = false) :
    proxy_request policy gz upstream req = (denialResponse, none) := by
  unfold proxy_request
  rw [h]
  simp

theorem proxy_request_ok (policy : Option String)
    (gz : List Nat → Except String (List Nat)) (req : Request)
    (st : Nat) (hs : List (String × String)) (b : List Nat)
    (hallow : check_access policy (get_client_ip req.headers req.remote) = true)
    (hgz : getHeaderCI hs "Content-Encoding" = some "gzip" → ∃ d, gz b = Except.ok d) :
    proxy_request policy gz (fun _ => UpstreamResult.ok st hs b) req =
      ({ status := st, headers := injectCORS (sanitize hs), body := RespBody.bytes b },
        some (targetOf req)) := by
  unfold proxy_request
  rw [hallow]
  by_cases hce : getHeaderCI hs "Content-Encoding" = some "gzip"
  · obtain ⟨d, hd⟩ := hgz hce
    simp [hce, hd]
  · have : (getHeaderCI hs "Content-Encoding" == some "gzip") = false := by
      simpa using hce
    simp [this]

theorem proxy_request_gzip_raises (policy : Option String)
    (gz : List Nat → Except String (List Nat)) (req : Request)
    (st : Nat) (hs : List (String × String)) (b : List Nat) (msg : String)
    (hallow : check_access policy (get_client_ip req.headers req.remote) = true)
    (hce : getHeaderCI hs "Content-Encoding" = some "gzip")
    (hgz : gz b = Except.error msg) :
    proxy_request policy gz (fun _ => UpstreamResult.ok st hs b) req =
      ({ status := 500, headers := [("Access-Control-Allow-Origin", "*")],
         body := RespBody.text ("Internal proxy error: " ++ msg) },
        some (targetOf req)) := by
  unfold proxy_request
  rw [hallow]
  simp [hce, hgz]

theorem proxy_request_raise (policy : Option String)
    (gz : List Nat → Except String (List Nat)) (req : Request) (e : PyExn)
    (hallow : check_access policy (get_client_ip req.headers req.remote) = true) :
    proxy_request policy gz (fun _ => UpstreamResult.raise e) req =
      ((if e.isClientError then
          { status := 502, headers := [("Access-Control-Allow-Origin", "*")],
            body := RespBody.text ("Proxy error: " ++ e.str) }
        else
          { status := 500, headers := [("Access-Control-Allow-Origin", "*")],
            body := RespBody.text ("Internal proxy error: " ++ e.str) }),
        some (targetOf req)) := by
  unfold proxy_request
  rw [hallow]
  by_cases hc : e.isClientError <;> simp [hc]

theorem proxy_request_contacts (policy : Option String)
    (gz : List Nat → Except String (List Nat)) (upstream : TargetRequest → UpstreamResult)
    (req : Request)
    (hallow : check_access policy (get_client_ip req.headers req.remote) = true) :
    (proxy_request policy gz upstream req).2 = some (targetOf req) := by
  unfold proxy_request
  rw [hallow]
  cases hup : upstream (targetOf req) with
  | ok st hs b =>
    by_cases hce : (getHeaderCI hs "Content-Encoding" == some "gzip") = true
    · cases hgzb : gz b with
      | error msg => simp [hup, hce, hgzb]
      | ok d => simp [hup, hce, hgzb]
    · simp [hup, hce]
  | raise e =>
    by_cases hc : e.isClientError = true <;> simp [hup, hc]


/-- C3: when the allow-list policy is absent the access check allows every
resolved client IP string (empty or malformed ones included); when it is set
to a non-empty IP literal `X` it allows a resolved IP string exactly when
that string equals `X` by plain string comparison (no CIDR matching, no
normalization). -/
theorem C3_check_access_spec :
    (∀ s : String, check_access none s = true)
  ∧ (∀ X s : String, X ≠ "" → (check_access (some X) s = true ↔ s = X)) := by
  constructor
  · intro s
    rfl
  · intro X s hX
    have ht : pyTruthyStr (some X) = true := by
      unfold pyTruthyStr
      simpa using hX
    unfold check_access
    rw [ht]
    simp

/-- Witness for C3 at concrete inputs. -/
theorem C3_check_access_spec_witness :
    check_access none "" = true
  ∧ (check_access (some "1.2.3.4") "1.2.3.4" = true ↔ "1.2.3.4" = "1.2.3.4")
  ∧ (check_access (some "1.2.3.4") "5.6.7.8" = true ↔ "5.6.7.8" = "1.2.3.4") :=
  ⟨C3_check_access_spec.1 "",
   C3_check_access_spec.2 "1.2.3.4" "1.2.3.4" (by decide),
   C3_check_access_spec.2 "1.2.3.4" "5.6.7.8" (by decide)⟩

/-- C5: a request whose resolved client IP fails the allow-list check gets a
403 response whose body identifies the denial, and the upstream is never
dispatched to (for every upstream oracle the recorded dispatch is `none`). -/
theorem C5_denial_short_circuit (policy : Option String)
    (gz : List Nat → Except String (List Nat)) (upstream : TargetRequest → UpstreamResult)
    (req : Request)
    (h : check_access policy (get_client_ip req.headers req.remote) = false) :
    (proxy_request policy gz upstream req).1.status = 403
  ∧ (proxy_request policy gz upstream req).1.body =
      RespBody.text "Access denied: Client IP not allowed"
  ∧ (proxy_request policy gz upstream req).2 = none := by
  rw [proxy_request_denied policy gz upstream req h]
  exact ⟨rfl, rfl, rfl⟩

/-- Witness for C5: a concrete denied request. -/
theorem C5_denial_short_circuit_witness :
    (proxy_request (some "1.2.3.4") (fun bs => Except.ok bs)
        (fun _ => UpstreamResult.ok 200 [] []) samplePost).1.status = 403
  ∧ (proxy_request (some "1.2.3.4") (fun bs => Except.ok bs)
        (fun _ => UpstreamResult.ok 200 [] []) samplePost).1.body =
      RespBody.text "Access denied: Client IP not allowed"
  ∧ (proxy_request (some "1.2.3.4") (fun bs => Except.ok bs)
        (fun _ => UpstreamResult.ok 200 [] []) samplePost).2 = none :=
  C5_denial_short_circuit (some "1.2.3.4") (fun bs => Except.ok bs)
    (fun _ => UpstreamResult.ok 200 [] []) samplePost (by decide)

/-- C9: for every header map, policy and remote address the preflight
handler and the main forwarding path compute the same allow/deny decision:
the forwarding path skips the upstream dispatch exactly when the preflight
handler answers with the 403 denial. -/
theorem C9_preflight_same_decision (policy : Option String)
    (gz : List Nat → Except String (List Nat)) (upstream : TargetRequest → UpstreamResult)
    (req : Request) :
    (proxy_request policy gz upstream req).2 = none
      ↔ (handle_options policy req).status = 403 := by
  by_cases h : check_access policy (get_client_ip req.headers req.remote) = true
  · rw [proxy_request_contacts policy gz upstream req h]
    unfold handle_options
    rw [h]
    simp
  · have hf : check_access policy (get_client_ip req.headers req.remote) = false := by
      simpa using h
    rw [proxy_request_denied policy gz upstream req hf]
    unfold handle_options
    rw [hf]
    simp [denialResponse]

/-- C10: configuring the allow-list as the empty string behaves exactly as an
absent policy on both the forwarding path and the preflight handler, and the
access check passes for every request. -/
theorem C10_empty_policy_unrestricted (gz : List Nat → Except String (List Nat))
    (upstream : TargetRequest → UpstreamResult) (req : Request) :
    proxy_request (some "") gz upstream req = proxy_request none gz upstream req
  ∧ handle_options (some "") req = handle_options none req
  ∧ check_access (some "") (get_client_ip req.headers req.remote) = true := by
  have h1 : ∀ ip, check_access (some "") ip = true := fun ip => rfl
  have h2 : ∀ ip, check_access none ip = true := fun ip => rfl
  refine ⟨?_, ?_, h1 _⟩
  · unfold proxy_request
    rw [h1, h2]
  · unfold handle_options
    rw [h1, h2]

/-- C6 counterexample: a total-timeout expiry surfaces as
`asyncio.TimeoutError`, which `except aiohttp.ClientError` does not catch, so
the code answers 500, not the claimed 502. -/
theorem C6_counterexample :
    (proxy_request none (fun bs => Except.ok bs)
        (fun _ => UpstreamResult.raise (PyExn.asyncioTimeoutError "")) samplePost).1.status = 500
  ∧ (proxy_request none (fun bs => Except.ok bs)
        (fun _ => UpstreamResult.raise (PyExn.asyncioTimeoutError "")) samplePost).1.status ≠ 502 :=
  ⟨by decide, by decide⟩

/-- C6 (amended): exceptions raised as `aiohttp.ClientError` — connect
timeouts, connection failures, DNS/TLS failures, payload read failures —
produce a local 502 with a diagnostic body; a total request timeout raises
`asyncio.TimeoutError`, which is not an `aiohttp.ClientError`, so it, like
every other unexpected error, produces a 500 with a diagnostic body; both
are ordinary return values of the handler, so the serving task never
crashes. -/
theorem C6_error_status_mapping (policy : Option String)
    (gz : List Nat → Except String (List Nat)) (req : Request) (e : PyExn) (m : String)
    (hallow : check_access policy (get_client_ip req.headers req.remote) = true) :
    (proxy_request policy gz (fun _ => UpstreamResult.raise e) req).1 =
      (if e.isClientError then
        { status := 502, headers := [("Access-Control-Allow-Origin", "*")],
          body := RespBody.text ("Proxy error: " ++ e.str) }
      else
        { status := 500, headers := [("Access-Control-Allow-Origin", "*")],
          body := RespBody.text ("Internal proxy error: " ++ e.str) })
  ∧ (PyExn.serverTimeoutError m).isClientError = true
  ∧ (PyExn.clientConnectorError m).isClientError = true
  ∧ (PyExn.clientConnectorSSLError m).isClientError = true
  ∧ (PyExn.clientPayloadError m).isClientError = true
  ∧ (PyExn.asyncioTimeoutError m).isClientError = false
  ∧ (PyExn.otherError m).isClientError = false := by
  refine ⟨?_, rfl, rfl, rfl, rfl, rfl, rfl⟩
  rw [proxy_request_raise policy gz req e hallow]

/-- Witness for C6 (amended): a concrete connect-timeout failure. -/
theorem C6_error_status_mapping_witness :
    (proxy_request none (fun bs => Except.ok bs)
        (fun _ => UpstreamResult.raise (PyExn.serverTimeoutError "Connection timeout to host"))
        samplePost).1 =
      (if (PyExn.serverTimeoutError "Connection timeout to host").isClientError then
        { status := 502, headers := [("Access-Control-Allow-Origin", "*")],
          body := RespBody.text
            ("Proxy error: " ++ (PyExn.serverTimeoutError "Connection timeout to host").str) }
      else
        { status := 500, headers := [("Access-Control-Allow-Origin", "*")],
          body := RespBody.text
            ("Internal proxy error: " ++
              (PyExn.serverTimeoutError "Connection timeout to host").str) })
  ∧ (PyExn.serverTimeoutError "t").isClientError = true
  ∧ (PyExn.clientConnectorError "t").isClientError = true
  ∧ (PyExn.clientConnectorSSLError "t").isClientError = true
  ∧ (PyExn.clientPayloadError "t").isClientError = true
  ∧ (PyExn.asyncioTimeoutError "t").isClientError = false
  ∧ (PyExn.otherError "t").isClientError = false :=
  C6_error_status_mapping none (fun bs => Except.ok bs) samplePost
    (PyExn.serverTimeoutError "Connection timeout to host") "t" (by decide)

/-- C7: whenever the success-path response is built (in particular whenever
`Content-Encoding: gzip` bodies decompress for the diagnostic step), the
outbound response copies the upstream status — 3xx included, redirects are
not followed — and the raw upstream body bytes, which are never replaced by
decompressed bytes. -/
theorem C7_relay_unchanged (policy : Option String)
    (gz : List Nat → Except String (List Nat)) (req : Request)
    (st : Nat) (hs : List (String × String)) (b : List Nat)
    (hallow : check_access policy (get_client_ip req.headers req.remote) = true)
    (hgz : getHeaderCI hs "Content-Encoding" = some "gzip" → ∃ d, gz b = Except.ok d) :
    (proxy_request policy gz (fun _ => UpstreamResult.ok st hs b) req).1.status = st
  ∧ (proxy_request policy gz (fun _ => UpstreamResult.ok st hs b) req).1.body =
      RespBody.bytes b := by
  rw [proxy_request_ok policy gz req st hs b hallow hgz]
  exact ⟨rfl, rfl⟩

/-- Witness for C7: a 302 redirect with a gzip `Content-Encoding` whose
decompression yields different bytes; the relayed status and body are still
the upstream's own. -/
theorem C7_relay_unchanged_witness :
    (proxy_request none (fun _ => Except.ok [9])
        (fun _ => UpstreamResult.ok 302
          [("Content-Encoding", "gzip"), ("Location", "https://example.com/")] [1, 2, 3])
        sampleGet).1.status = 302
  ∧ (proxy_request none (fun _ => Except.ok [9])
        (fun _ => UpstreamResult.ok 302
          [("Content-Encoding", "gzip"), ("Location", "https://example.com/")] [1, 2, 3])
        sampleGet).1.body = RespBody.bytes [1, 2, 3] :=
  C7_relay_unchanged none (fun _ => Except.ok [9]) sampleGet 302
    [("Content-Encoding", "gzip"), ("Location", "https://example.com/")] [1, 2, 3]
    (by decide) (fun _ => ⟨[9], rfl⟩)

/-- C8: every `OPTIONS` request is routed to the local preflight handler and
never contacts the upstream; when the access check passes the answer is a
bodyless 200 carrying the three CORS headers and `Access-Control-Max-Age:
86400`. -/
theorem C8_options_local (policy : Option String)
    (gz : List Nat → Except String (List Nat)) (upstream : TargetRequest → UpstreamResult)
    (req : Request) (hm : req.method = "OPTIONS") :
    (app_handle policy gz upstream req).2 = none
  ∧ (check_access policy (get_client_ip req.headers req.remote) = true →
      (app_handle policy gz upstream req).1 =
        { status := 200, headers := preflightHeaders, body := RespBody.empty }) := by
  have hb : (req.method == "OPTIONS") = true := by simpa using hm
  unfold app_handle
  rw [hb]
  constructor
  · simp
  · intro hallow
    unfold handle_options
    rw [hallow]
    simp

/-- Witness for C8: a concrete allowed `OPTIONS` request. -/
theorem C8_options_local_witness :
    (app_handle none (fun bs => Except.ok bs) (fun _ => UpstreamResult.ok 200 [] [])
        sampleOptions).2 = none
  ∧ (app_handle none (fun bs => Except.ok bs) (fun _ => UpstreamResult.ok 200 [] [])
        sampleOptions).1 =
      { status := 200, headers := preflightHeaders, body := RespBody.empty } :=
  ⟨(C8_options_local none (fun bs => Except.ok bs) (fun _ => UpstreamResult.ok 200 [] [])
      sampleOptions (by decide)).1,
   (C8_options_local none (fun bs => Except.ok bs) (fun _ => UpstreamResult.ok 200 [] [])
      sampleOptions (by decide)).2 (by decide)⟩

/-- C2 counterexample: the `dict(...)` conversion deduplicates repeated
keys, so sanitization does not preserve duplicate non-hop-by-hop headers as
the claim states. -/
theorem C2_counterexample :
    sanitize [("X-Foo", "a"), ("X-Foo", "b")] = [("X-Foo", "a")]
  ∧ sanitize [("X-Foo", "a"), ("X-Foo", "b")] ≠ [("X-Foo", "a"), ("X-Foo", "b")] :=
  ⟨by decide, by decide⟩

/-- C2 (amended): sanitization never lets one of the nine hop-by-hop names
through (compared case-insensitively), and on a header map whose names are
pairwise case-insensitively distinct it keeps every non-hop-by-hop entry
unchanged in value and relative order; duplicate keys, however, are
collapsed by the `dict(...)` conversion before filtering. -/
theorem C2_sanitize_props (H : List (String × String)) :
    (sanitize H).all (fun kv => !(hop_by_hop_headers.contains (pyLower kv.1))) = true
  ∧ ((H.map (fun kv => pyLower kv.1)).Nodup →
      sanitize H = H.filter (fun kv => !(hop_by_hop_headers.contains (pyLower kv.1)))) := by
  constructor
  · rw [List.all_eq_true]
    intro kv hkv
    have hc := sanitize_no_hop H kv hkv
    simp only [Bool.not_eq_true']
    exact hc
  · exact sanitize_of_nodupCI H

/-- Witness for C2 (amended) on a concrete header map with hop-by-hop and
ordinary entries. -/
theorem C2_sanitize_props_witness :
    (sanitize [("Connection", "keep-alive"), ("Host", "api.example.com"),
        ("Authorization", "Bearer k"), ("content-type", "application/json")]).all
      (fun kv => !(hop_by_hop_headers.contains (pyLower kv.1))) = true
  ∧ sanitize [("Connection", "keep-alive"), ("Host", "api.example.com"),
        ("Authorization", "Bearer k"), ("content-type", "application/json")] =
      [("Connection", "keep-alive"), ("Host", "api.example.com"),
        ("Authorization", "Bearer k"), ("content-type", "application/json")].filter
        (fun kv => !(hop_by_hop_headers.contains (pyLower kv.1))) :=
  ⟨(C2_sanitize_props _).1,
   (C2_sanitize_props [("Connection", "keep-alive"), ("Host", "api.example.com"),
      ("Authorization", "Bearer k"), ("content-type", "application/json")]).2 (by decide)⟩

/-- C1 counterexample: the denial path sets only
`Access-Control-Allow-Origin`, not the other two fixed CORS headers. -/
theorem C1_counterexample :
    (proxy_request (some "1.2.3.4") (fun bs => Except.ok bs)
        (fun _ => UpstreamResult.ok 200 [] [])
        { method := "GET", path_qs := "/v1/models", headers := [], body := none,
          remote := "9.9.9.9" }).1.headers = [("Access-Control-Allow-Origin", "*")]
  ∧ countCI (proxy_request (some "1.2.3.4") (fun bs => Except.ok bs)
        (fun _ => UpstreamResult.ok 200 [] [])
        { method := "GET", path_qs := "/v1/models", headers := [], body := none,
          remote := "9.9.9.9" }).1.headers "Access-Control-Allow-Methods" = 0
  ∧ countCI (proxy_request (some "1.2.3.4") (fun bs => Except.ok bs)
        (fun _ => UpstreamResult.ok 200 [] [])
        { method := "GET", path_qs := "/v1/models", headers := [], body := none,
          remote := "9.9.9.9" }).1.headers "Access-Control-Allow-Headers" = 0 :=
  ⟨by decide, by decide, by decide⟩

/-- C1 (amended): every outcome path's response carries
`Access-Control-Allow-Origin: *`; the successful relay carries all three
fixed CORS header pairs — exactly once each when the upstream's header names
do not already include a CORS name — and the successful preflight carries
all three exactly once; the denial, upstream-failure and internal-fault
responses carry only the origin header of the three. -/
theorem C1_cors_all_paths (policy : Option String)
    (gz : List Nat → Except String (List Nat)) (upstream : TargetRequest → UpstreamResult)
    (req : Request) (st : Nat) (hs : List (String × String)) (b : List Nat)
    (e : PyExn) (msg : String) :
    (check_access policy (get_client_ip req.headers req.remote) = false →
      (proxy_request policy gz upstream req).1.headers = [("Access-Control-Allow-Origin", "*")])
  ∧ (check_access policy (get_client_ip req.headers req.remote) = true →
      (proxy_request policy gz (fun _ => UpstreamResult.raise e) req).1.headers
        = [("Access-Control-Allow-Origin", "*")])
  ∧ (check_access policy (get_client_ip req.headers req.remote) = true →
      getHeaderCI hs "Content-Encoding" = some "gzip" → gz b = Except.error msg →
      (proxy_request policy gz (fun _ => UpstreamResult.ok st hs b) req).1.headers
        = [("Access-Control-Allow-Origin", "*")])
  ∧ (check_access policy (get_client_ip req.headers req.remote) = true →
      (getHeaderCI hs "Content-Encoding" = some "gzip" → ∃ d, gz b = Except.ok d) →
      (("Access-Control-Allow-Origin", "*")
          ∈ (proxy_request policy gz (fun _ => UpstreamResult.ok st hs b) req).1.headers
        ∧ ("Access-Control-Allow-Methods", "GET, POST, PUT, DELETE, OPTIONS")
          ∈ (proxy_request policy gz (fun _ => UpstreamResult.ok st hs b) req).1.headers
        ∧ ("Access-Control-Allow-Headers", "*")
          ∈ (proxy_request policy gz (fun _ => UpstreamResult.ok st hs b) req).1.headers))
  ∧ (check_access policy (get_client_ip req.headers req.remote) = true →
      (getHeaderCI hs "Content-Encoding" = some "gzip" → ∃ d, gz b = Except.ok d) →
      (∀ kv ∈ hs, corsNamesLower.contains (pyLower kv.1) = false) →
      (countCI (proxy_request policy gz (fun _ => UpstreamResult.ok st hs b) req).1.headers
          "Access-Control-Allow-Origin" = 1
        ∧ countCI (proxy_request policy gz (fun _ => UpstreamResult.ok st hs b) req).1.headers
          "Access-Control-Allow-Methods" = 1
        ∧ countCI (proxy_request policy gz (fun _ => UpstreamResult.ok st hs b) req).1.headers
          "Access-Control-Allow-Headers" = 1))
  ∧ ((handle_options policy req).headers
      = if check_access policy (get_client_ip req.headers req.remote) then preflightHeaders
        else [("Access-Control-Allow-Origin", "*")])
  ∧ (countCI preflightHeaders "Access-Control-Allow-Origin" = 1
      ∧ countCI preflightHeaders "Access-Control-Allow-Methods" = 1
      ∧ countCI preflightHeaders "Access-Control-Allow-Headers" = 1) := by
  refine ⟨?_, ?_, ?_, ?_, ?_, ?_, by decide⟩
  · intro hdeny
    rw [proxy_request_denied policy gz upstream req hdeny]
    rfl
  · intro hallow
    rw [proxy_request_raise policy gz req e hallow]
    by_cases hc : e.isClientError = true <;> simp [hc]
  · intro hallow hce hgz
    rw [proxy_request_gzip_raises policy gz req st hs b msg hallow hce hgz]
  · intro hallow hgz
    rw [proxy_request_ok policy gz req st hs b hallow hgz]
    exact injectCORS_mem (sanitize hs)
  · intro hallow hgz hcors
    rw [proxy_request_ok policy gz req st hs b hallow hgz]
    refine injectCORS_counts (sanitize hs) ?_
    intro kv hkv
    obtain ⟨kv', hkv', hname⟩ := sanitize_names hs kv hkv
    rw [hname]
    exact hcors kv' hkv'
  · unfold handle_options
    by_cases h : check_access policy (get_client_ip req.headers req.remote) = true
    · rw [h]
      simp
    · have hf : check_access policy (get_client_ip req.headers req.remote) = false := by
        simpa using h
      rw [hf]
      simp [denialResponse]


/-- Witness for C1 (amended) on concrete denied, failing, gzip-failing,
successful and preflight scenarios. -/
theorem C1_cors_all_paths_witness :
    (proxy_request (some "1.2.3.4") gzOk upNull samplePost).1.headers
      = [("Access-Control-Allow-Origin", "*")]
  ∧ (proxy_request none gzOk (fun _ => UpstreamResult.raise (PyExn.otherError "boom"))
      sampleGet).1.headers = [("Access-Control-Allow-Origin", "*")]
  ∧ (proxy_request none (fun _ => Except.error "Not a gzipped file")
      (fun _ => UpstreamResult.ok 200 [("Content-Encoding", "gzip")] [1]) sampleGet).1.headers
      = [("Access-Control-Allow-Origin", "*")]
  ∧ (("Access-Control-Allow-Origin", "*")
        ∈ (proxy_request none gzOk (fun _ => UpstreamResult.ok 200 [("X-Upstream", "1")] [])
            sampleGet).1.headers
      ∧ ("Access-Control-Allow-Methods", "GET, POST, PUT, DELETE, OPTIONS")
        ∈ (proxy_request none gzOk (fun _ => UpstreamResult.ok 200 [("X-Upstream", "1")] [])
            sampleGet).1.headers
      ∧ ("Access-Control-Allow-Headers", "*")
        ∈ (proxy_request none gzOk (fun _ => UpstreamResult.ok 200 [("X-Upstream", "1")] [])
            sampleGet).1.headers)
  ∧ (countCI (proxy_request none gzOk (fun _ => UpstreamResult.ok 200 [("X-Upstream", "1")] [])
        sampleGet).1.headers "Access-Control-Allow-Origin" = 1
      ∧ countCI (proxy_request none gzOk (fun _ => UpstreamResult.ok 200 [("X-Upstream", "1")] [])
        sampleGet).1.headers "Access-Control-Allow-Methods" = 1
      ∧ countCI (proxy_request none gzOk (fun _ => UpstreamResult.ok 200 [("X-Upstream", "1")] [])
        sampleGet).1.headers "Access-Control-Allow-Headers" = 1)
  ∧ (handle_options none sampleGet).headers
      = (if check_access none (get_client_ip sampleGet.headers sampleGet.remote)
          then preflightHeaders else [("Access-Control-Allow-Origin", "*")])
  ∧ (countCI preflightHeaders "Access-Control-Allow-Origin" = 1
      ∧ countCI preflightHeaders "Access-Control-Allow-Methods" = 1
      ∧ countCI preflightHeaders "Access-Control-Allow-Headers" = 1) :=
  ⟨(C1_cors_all_paths (some "1.2.3.4") gzOk upNull samplePost 200 [] []
      (PyExn.otherError "x") "m").1 (by decide),
   (C1_cors_all_paths none gzOk upNull sampleGet 200 [] [] (PyExn.otherError "boom") "m").2.1
      (by decide),
   (C1_cors_all_paths none (fun _ => Except.error "Not a gzipped file") upNull sampleGet 200
      [("Content-Encoding", "gzip")] [1] (PyExn.otherError "x") "Not a gzipped file").2.2.1
      (by decide) (by decide) rfl,
   (C1_cors_all_paths none gzOk upNull sampleGet 200 [("X-Upstream", "1")] []
      (PyExn.otherError "x") "m").2.2.2.1 (by decide) (fun _ => ⟨[], rfl⟩),
   (C1_cors_all_paths none gzOk upNull sampleGet 200 [("X-Upstream", "1")] []
      (PyExn.otherError "x") "m").2.2.2.2.1 (by decide) (fun _ => ⟨[], rfl⟩) (by decide),
   (C1_cors_all_paths none gzOk upNull sampleGet 200 [] [] (PyExn.otherError "x") "m").2.2.2.2.2.1,
   (C1_cors_all_paths none gzOk upNull sampleGet 200 [] [] (PyExn.otherError "x")
      "m").2.2.2.2.2.2⟩

theorem takeWhile_append_all {α : Type} (p : α → Bool) (l₁ l₂ : List α)
    (h : l₁.all p = true) : (l₁ ++ l₂).takeWhile p = l₁ ++ l₂.takeWhile p := by
  induction l₁ with
  | nil => simp
  | cons a t ih =>
    rw [List.all_cons, Bool.and_eq_true] at h
    simp [List.takeWhile_cons, h.1, ih h.2]

theorem append_ne_empty_right (a b : String) (h : b ≠ "") : a ++ b ≠ "" := by
  intro hcontra
  apply h
  have hd : a.data ++ b.data = [] := by
    have := congrArg String.data hcontra
    rwa [String.data_append] at this
  have hb : b.data = [] := (List.append_eq_nil.mp hd).2
  cases b
  simp_all

/-- C4 counterexample: with `X-Forwarded-For` present but empty, the code
falls through to `X-Real-IP`, while the claim's presence-based rule resolves
the empty first token. -/
theorem C4_counterexample :
    resolve_client_ip_claim [("X-Forwarded-For", ""), ("X-Real-IP", "9.9.9.9")] "7.7.7.7" = ""
  ∧ get_client_ip [("X-Forwarded-For", ""), ("X-Real-IP", "9.9.9.9")] "7.7.7.7" = "9.9.9.9"
  ∧ get_client_ip [("X-Forwarded-For", ""), ("X-Real-IP", "9.9.9.9")] "7.7.7.7"
      ≠ resolve_client_ip_claim [("X-Forwarded-For", ""), ("X-Real-IP", "9.9.9.9")] "7.7.7.7" :=
  ⟨by decide, by decide, by decide⟩

/-- C4 (amended): the client IP resolves to the trimmed first comma-separated
token of `X-Forwarded-For` when that header is present *with a non-empty
value*; otherwise to the trimmed `X-Real-IP` value when that header is
present with a non-empty value; otherwise to the transport remote address.
With policy `X`, a request bearing `X-Forwarded-For: X, 10.0.0.1` is allowed
and one bearing `X-Forwarded-For: 10.0.0.1, X` is denied. -/
theorem C4_client_ip_resolution (H : List (String × String)) (remote : String) (X : String) :
    (∀ v, getHeaderCI H "X-Forwarded-For" = some v → v ≠ "" →
        get_client_ip H remote = pyStrip (firstCommaToken v))
  ∧ ((getHeaderCI H "X-Forwarded-For" = none ∨ getHeaderCI H "X-Forwarded-For" = some "") →
      ∀ v, getHeaderCI H "X-Real-IP" = some v → v ≠ "" →
        get_client_ip H remote = pyStrip v)
  ∧ ((getHeaderCI H "X-Forwarded-For" = none ∨ getHeaderCI H "X-Forwarded-For" = some "") →
      (getHeaderCI H "X-Real-IP" = none ∨ getHeaderCI H "X-Real-IP" = some "") →
      get_client_ip H remote = remote)
  ∧ (X ≠ "" → pyStrip X = X → X ≠ "10.0.0.1" → X.data.all (fun c => c != ',') = true →
      check_access (some X)
          (get_client_ip [("X-Forwarded-For", X ++ ", 10.0.0.1")] remote) = true
        ∧ check_access (some X)
          (get_client_ip [("X-Forwarded-For", "10.0.0.1, " ++ X)] remote) = false) := by
  refine ⟨?_, ?_, ?_, ?_⟩
  · intro v hv hne
    have ht : pyTruthyStr (some v) = true := by
      unfold pyTruthyStr
      simpa using hne
    simp [get_client_ip, hv, ht]
  · intro hff v hv hne
    have hft : pyTruthyStr (getHeaderCI H "X-Forwarded-For") = false := by
      rcases hff with h | h <;> rw [h] <;> rfl
    have ht : pyTruthyStr (some v) = true := by
      unfold pyTruthyStr
      simpa using hne
    simp [get_client_ip, hft, hv, ht]
  · intro hff hri
    have hft : pyTruthyStr (getHeaderCI H "X-Forwarded-For") = false := by
      rcases hff with h | h <;> rw [h] <;> rfl
    have hrt : pyTruthyStr (getHeaderCI H "X-Real-IP") = false := by
      rcases hri with h | h <;> rw [h] <;> rfl
    simp [get_client_ip, hft, hrt]
  · intro hX hstrip hX10 hXcomma
    have htX : pyTruthyStr (some X) = true := by
      unfold pyTruthyStr
      simpa using hX
    have hval1 : getHeaderCI [("X-Forwarded-For", X ++ ", 10.0.0.1")] "X-Forwarded-For"
        = some (X ++ ", 10.0.0.1") := by
      unfold getHeaderCI
      rw [List.find?_cons_of_pos]
      · rfl
      · exact beq_self_eq_true _
    have hne1 : X ++ ", 10.0.0.1" ≠ "" := append_ne_empty_right X _ (by decide)
    have ht1 : pyTruthyStr (some (X ++ ", 10.0.0.1")) = true := by
      unfold pyTruthyStr
      simpa using hne1
    have htok1 : firstCommaToken (X ++ ", 10.0.0.1") = X := by
      unfold firstCommaToken
      rw [String.data_append, takeWhile_append_all _ _ _ hXcomma]
      have hdrop : (", 10.0.0.1").data.takeWhile (fun c => c != ',') = [] := by decide
      rw [hdrop, List.append_nil]
    have hval2 : getHeaderCI [("X-Forwarded-For", "10.0.0.1, " ++ X)] "X-Forwarded-For"
        = some ("10.0.0.1, " ++ X) := by
      unfold getHeaderCI
      rw [List.find?_cons_of_pos]
      · rfl
      · exact beq_self_eq_true _
    have hne2 : "10.0.0.1, " ++ X ≠ "" := by
      intro hcontra
      have hd := congrArg String.data hcontra
      rw [String.data_append] at hd
      exact absurd (List.append_eq_nil.mp hd).1 (by decide)
    have ht2 : pyTruthyStr (some ("10.0.0.1, " ++ X)) = true := by
      unfold pyTruthyStr
      simpa using hne2
    have htok2 : firstCommaToken ("10.0.0.1, " ++ X) = "10.0.0.1" := rfl
    constructor
    · have hres : get_client_ip [("X-Forwarded-For", X ++ ", 10.0.0.1")] remote = X := by
        simp [get_client_ip, hval1, ht1, htok1, hstrip]
      rw [hres]
      unfold check_access
      rw [htX]
      simp
    · have hres : get_client_ip [("X-Forwarded-For", "10.0.0.1, " ++ X)] remote
          = "10.0.0.1" := by
        simp [get_client_ip, hval2, ht2, htok2]
        decide
      rw [hres]
      unfold check_access
      rw [htX]
      simp
      exact fun h => hX10 h.symm

/-- Witness for C4 (amended) at concrete inputs. -/
theorem C4_client_ip_resolution_witness :
    get_client_ip [("X-Forwarded-For", " 1.2.3.4 , 10.0.0.1")] "7.7.7.7"
      = pyStrip (firstCommaToken " 1.2.3.4 , 10.0.0.1")
  ∧ (check_access (some "1.2.3.4")
        (get_client_ip [("X-Forwarded-For", "1.2.3.4" ++ ", 10.0.0.1")] "7.7.7.7") = true
      ∧ check_access (some "1.2.3.4")
        (get_client_ip [("X-Forwarded-For", "10.0.0.1, " ++ "1.2.3.4")] "7.7.7.7") = false) :=
  ⟨(C4_client_ip_resolution [("X-Forwarded-For", " 1.2.3.4 , 10.0.0.1")] "7.7.7.7" "x").1
      " 1.2.3.4 , 10.0.0.1" (by decide) (by decide),
   (C4_client_ip_resolution [] "7.7.7.7" "1.2.3.4").2.2.2 (by decide) (by decide) (by decide)
      (by decide)⟩
